import Mathlib

/-!
Verification of the tableau-looker-converter domain model and parsing
entrypoint.

The Python source consists of pydantic models (src/domain/tableau_semantic.py,
src/domain/lookml_project.py) and the high-level entrypoint
src/services/parser_service.py.  Pydantic construction validates each field
against its declared type: `Literal[...]` fields reject any string outside the
enumeration, all other fields (including `complexity_score: float`) accept any
value of the right runtime type.  We embed each pydantic class as a Lean
structure whose default field values mirror the Python defaults, and embed
pydantic acceptance as a Bool-valued `valid` predicate that checks exactly the
`Literal` enumerations, since those are the only constraints the classes
declare (no custom validators exist in the source).

`float` fields carry no arithmetic in any claim we verify, only presence or
absence of a range constraint, so `complexity_score` is embedded as `Rat`.

The low-level adapter module imported by parser_service.py is not under src/;
where a claim depends on it, the corresponding definition is modelled from the
spec and marked as such in its doc comment.
-/

/-- Basic info about the Tableau workbook (tableau_semantic.py lines 11-15). -/
structure TableauWorkbook where
  id : String
  name : String
  description : Option String := none
  deriving DecidableEq

/-- How the datasource connects to data (tableau_semantic.py lines 21-28).
The `type` field is declared `Literal["table", "custom_sql", "extract",
"unknown"]` with default `"unknown"`; no other constraint is declared. -/
structure TableauConnection where
  type : String := "unknown"
  dialect : Option String := none
  database : Option String := none
  schema : Option String := none
  table : Option String := none
  raw_sql : Option String := none
  deriving DecidableEq

/-- Logical table inside a datasource (tableau_semantic.py lines 31-38). -/
structure TableauTable where
  id : String
  name : String
  database : Option String := none
  schema : Option String := none
  table : Option String := none
  is_primary : Bool := false
  deriving DecidableEq

/-- Join between logical tables (tableau_semantic.py lines 41-48). -/
structure TableauJoin where
  id : String
  left_table_id : String
  right_table_id : String
  join_type : String := "unknown"
  condition : String
  needs_manual_review : Bool := false
  deriving DecidableEq

/-- Single field in a datasource (tableau_semantic.py lines 54-75). -/
structure TableauField where
  id : String
  name : String
  caption : Option String := none
  table_id : Option String := none
  role : String := "unknown"
  datatype : String := "unknown"
  aggregation : Option String := none
  source : String := "unknown"
  column_name : Option String := none
  calculation_id : Option String := none
  is_hidden : Bool := false
  tags : List String := []
  deriving DecidableEq

/-- A calculated field definition (tableau_semantic.py lines 78-96).
`complexity_score: float = 0.0` carries no declared range constraint. -/
structure TableauCalculation where
  id : String
  name : String
  datasource_id : String
  expression : String
  datatype : String := "unknown"
  category : String := "unknown"
  complexity_score : Rat := 0
  deriving DecidableEq

/-- Filter applied on a sheet (tableau_semantic.py lines 102-106). -/
structure TableauSheetFilter where
  field_id : String
  expression : String
  applied_to : String := "unknown"
  deriving DecidableEq

/-- Minimal visualization metadata per sheet (tableau_semantic.py lines 109-126). -/
structure TableauSheetVisualization where
  chart_type : String := "unknown"
  primary_dimension_id : Option String := none
  primary_measure_ids : List String := []
  split_by_dimension_ids : List String := []
  sort_order : Option String := none
  granularity : Option String := none
  deriving DecidableEq

/-- A worksheet in Tableau (tableau_semantic.py lines 129-144). -/
structure TableauSheet where
  id : String
  name : String
  datasource_id : String
  used_field_ids : List String := []
  filters : List TableauSheetFilter := []
  visualization : Option TableauSheetVisualization := none
  description : Option String := none
  deriving DecidableEq

/-- A Tableau datasource, tying tables, joins and fields together
(tableau_semantic.py lines 150-157). -/
structure TableauDatasource where
  id : String
  name : String
  connection : TableauConnection
  tables : List TableauTable := []
  joins : List TableauJoin := []
  fields : List TableauField := []
  deriving DecidableEq

/-- Top-level model output by the parser (tableau_semantic.py lines 163-175).
`workbook` is a required, non-optional field. -/
structure TableauSemanticModel where
  schema_version : String := "1.0"
  workbook : TableauWorkbook
  datasources : List TableauDatasource := []
  calculations : List TableauCalculation := []
  sheets : List TableauSheet := []
  deriving DecidableEq

/-- The `Literal` enumeration of `TableauConnection.type`. -/
def connectionTypes : List String := ["table", "custom_sql", "extract", "unknown"]

/-- The `Literal` enumeration of `TableauJoin.join_type`. -/
def joinTypes : List String := ["inner", "left", "right", "full", "unknown"]

/-- The `Literal` enumeration of `TableauField.role`. -/
def fieldRoles : List String := ["dimension", "measure", "unknown"]

/-- The `Literal` enumeration of `TableauField.datatype` and
`TableauCalculation.datatype`. -/
def fieldDatatypes : List String :=
  ["string", "number", "date", "datetime", "boolean", "unknown"]

/-- The `Literal` enumeration of `TableauField.source`. -/
def fieldSources : List String := ["column", "calculation", "parameter", "unknown"]

/-- The `Literal` enumeration of `TableauCalculation.category`. -/
def calcCategories : List String :=
  ["simple", "lod", "table_calc", "parameter_based", "unknown"]

/-- The `Literal` enumeration of `TableauSheetFilter.applied_to`. -/
def filterScopes : List String := ["rows", "columns", "table", "unknown"]

/-- The `Literal` enumeration of `TableauSheetVisualization.chart_type`. -/
def chartTypes : List String :=
  ["table", "bar", "line", "area", "scatter", "pie", "single_value", "unknown"]

/-- Pydantic acceptance of a `TableauConnection`: only the `Literal` check on
`type` is declared, nothing else is validated. -/
def TableauConnection.valid (c : TableauConnection) : Bool :=
  connectionTypes.contains c.type

/-- Pydantic acceptance of a `TableauJoin`: only the `Literal` check on
`join_type`. -/
def TableauJoin.valid (j : TableauJoin) : Bool :=
  joinTypes.contains j.join_type

/-- Pydantic acceptance of a `TableauField`: `Literal` checks on `role`,
`datatype` and `source`. -/
def TableauField.valid (f : TableauField) : Bool :=
  fieldRoles.contains f.role && fieldDatatypes.contains f.datatype &&
    fieldSources.contains f.source

/-- Pydantic acceptance of a `TableauCalculation`: `Literal` checks on
`datatype` and `category`; `complexity_score` is an unconstrained float. -/
def TableauCalculation.valid (c : TableauCalculation) : Bool :=
  fieldDatatypes.contains c.datatype && calcCategories.contains c.category

/-- Pydantic acceptance of a `TableauSheetFilter`. -/
def TableauSheetFilter.valid (f : TableauSheetFilter) : Bool :=
  filterScopes.contains f.applied_to

/-- Pydantic acceptance of a `TableauSheetVisualization`. -/
def TableauSheetVisualization.valid (v : TableauSheetVisualization) : Bool :=
  chartTypes.contains v.chart_type

/-- Pydantic acceptance of a `TableauSheet`: nested models are validated. -/
def TableauSheet.valid (s : TableauSheet) : Bool :=
  s.filters.all TableauSheetFilter.valid &&
    (match s.visualization with
     | none => true
     | some v => v.valid)

/-- Pydantic acceptance of a `TableauDatasource`: nested models are validated. -/
def TableauDatasource.valid (ds : TableauDatasource) : Bool :=
  ds.connection.valid && ds.joins.all TableauJoin.valid &&
    ds.fields.all TableauField.valid

/-- Pydantic acceptance of a `TableauSemanticModel`: nested models are
validated; no cross-reference check is declared anywhere in the class. -/
def TableauSemanticModel.valid (m : TableauSemanticModel) : Bool :=
  m.datasources.all TableauDatasource.valid &&
    m.calculations.all TableauCalculation.valid &&
    m.sheets.all TableauSheet.valid

/-- A single LookML file (lookml_project.py lines 8-17). -/
structure LookMLFile where
  filename : String
  content : String
  deriving DecidableEq

/-- In-memory representation of the generated LookML project
(lookml_project.py lines 19-30). -/
structure LookMLProject where
  model_files : List LookMLFile
  view_files : List LookMLFile
  dashboard_files : List LookMLFile
  deriving DecidableEq

/-- Convenience helper returning all files together in a stable order
(lookml_project.py lines 32-37). -/
def LookMLProject.all_files (p : LookMLProject) : List LookMLFile :=
  p.model_files ++ p.view_files ++ p.dashboard_files

/-- C5: for every LookMLProject, all_files returns exactly the concatenation
of model_files, then view_files, then dashboard_files, in that fixed order,
and its length is the sum of the three lengths. -/
theorem all_files_concat (p : LookMLProject) :
    p.all_files = p.model_files ++ p.view_files ++ p.dashboard_files ∧
    p.all_files.length =
      p.model_files.length + p.view_files.length + p.dashboard_files.length := by
  refine ⟨rfl, ?_⟩
  simp [LookMLProject.all_files, Nat.add_assoc]

/-- C6: a TableauField constructed giving only the required fields id and
name (hence no aggregation signal and no explicit role, datatype or source)
has role, datatype and source equal to "unknown" and no aggregation; in
particular the role is never "dimension" or "measure". -/
theorem field_defaults_unknown (i n : String) :
    ({ id := i, name := n } : TableauField).role = "unknown" ∧
    ({ id := i, name := n } : TableauField).role ≠ "dimension" ∧
    ({ id := i, name := n } : TableauField).role ≠ "measure" ∧
    ({ id := i, name := n } : TableauField).datatype = "unknown" ∧
    ({ id := i, name := n } : TableauField).source = "unknown" ∧
    ({ id := i, name := n } : TableauField).aggregation = none := by
  refine ⟨rfl, ?_, ?_, rfl, rfl, rfl⟩
  · show ("unknown" : String) ≠ "dimension"
    decide
  · show ("unknown" : String) ≠ "measure"
    decide

/-- Spec-side predicate, following the wording of the referential invariant:
every TableauField with source "calculation" has a calculation_id naming an
existing TableauCalculation of the same datasource, every TableauJoin
references two TableauTables of its own datasource, and every sheet filter
and visualization field reference names a field of the owning sheet
datasource.  This predicate is stated from the claim, to be compared with
what `TableauSemanticModel.valid` (the code) actually checks. -/
def TableauSemanticModel.refsResolve (m : TableauSemanticModel) : Bool :=
  m.datasources.all (fun ds =>
    ds.fields.all (fun f =>
      f.source != "calculation" ||
        (match f.calculation_id with
         | some cid =>
             m.calculations.any (fun c => c.id == cid && c.datasource_id == ds.id)
         | none => false)) &&
    ds.joins.all (fun j =>
      ds.tables.any (fun t => t.id == j.left_table_id) &&
        ds.tables.any (fun t => t.id == j.right_table_id))) &&
  m.sheets.all (fun s =>
    match m.datasources.find? (fun ds => ds.id == s.datasource_id) with
    | none => false
    | some ds =>
        s.filters.all (fun fl => (ds.fields.map TableauField.id).contains fl.field_id) &&
        (match s.visualization with
         | none => true
         | some v =>
             (match v.primary_dimension_id with
              | none => true
              | some d => (ds.fields.map TableauField.id).contains d) &&
             v.primary_measure_ids.all (fun x => (ds.fields.map TableauField.id).contains x) &&
             v.split_by_dimension_ids.all (fun x => (ds.fields.map TableauField.id).contains x)))

/-- A concrete model containing a dangling reference: a field whose source is
"calculation" but whose calculation_id is absent, inside a datasource with a
join whose table ids name no table.  Every declared `Literal` value is in its
enumeration, so pydantic accepts this model. -/
def danglingModel : TableauSemanticModel :=
  { workbook := { id := "wb1", name := "WB" }
    datasources :=
      [{ id := "ds1", name := "DS"
         connection := { type := "unknown" }
         tables := []
         joins := [{ id := "j1", left_table_id := "missing_left",
                     right_table_id := "missing_right",
                     condition := "[a] = [b]" }]
         fields := [{ id := "f1", name := "Profit", source := "calculation",
                      calculation_id := none }] }]
    calculations := []
    sheets := [] }

/-- C1 counterexample: `danglingModel` is accepted by construction/validation
(pydantic checks only the Literal enumerations) yet contains dangling
references, refuting the claim that every accepted model resolves all its
references. -/
theorem model_validation_accepts_dangling_reference :
    danglingModel.valid = true ∧ danglingModel.refsResolve = false := by
  constructor <;> rfl

/-- Rewrite of all reference-carrying ids of a field, leaving enumerated
fields untouched. -/
def scrubField (g : Option String → Option String) (f : TableauField) :
    TableauField :=
  { f with table_id := g f.table_id, calculation_id := g f.calculation_id }

/-- Rewrite of the table ids of a join, leaving join_type untouched. -/
def scrubJoin (h : String → String) (j : TableauJoin) : TableauJoin :=
  { j with left_table_id := h j.left_table_id,
           right_table_id := h j.right_table_id }

/-- Rewrite of the field id referenced by a filter. -/
def scrubFilter (h : String → String) (fl : TableauSheetFilter) :
    TableauSheetFilter :=
  { fl with field_id := h fl.field_id }

/-- Rewrite of the field ids referenced by a visualization. -/
def scrubViz (g : Option String → Option String) (h : String → String)
    (v : TableauSheetVisualization) : TableauSheetVisualization :=
  { v with primary_dimension_id := g v.primary_dimension_id,
           primary_measure_ids := v.primary_measure_ids.map h,
           split_by_dimension_ids := v.split_by_dimension_ids.map h }

/-- Rewrite of all field references of a sheet. -/
def scrubSheet (g : Option String → Option String) (h : String → String)
    (s : TableauSheet) : TableauSheet :=
  { s with used_field_ids := s.used_field_ids.map h,
           filters := s.filters.map (scrubFilter h),
           visualization := s.visualization.map (scrubViz g h) }

/-- Rewrite of all references inside a datasource. -/
def scrubDatasource (g : Option String → Option String) (h : String → String)
    (ds : TableauDatasource) : TableauDatasource :=
  { ds with joins := ds.joins.map (scrubJoin h),
            fields := ds.fields.map (scrubField g) }

/-- Rewrite of every reference-carrying id in the model, leaving all
enumerated classification fields untouched. -/
def TableauSemanticModel.scrubRefs (g : Option String → Option String)
    (h : String → String) (m : TableauSemanticModel) : TableauSemanticModel :=
  { m with datasources := m.datasources.map (scrubDatasource g h),
           sheets := m.sheets.map (scrubSheet g h) }

theorem scrubField_valid (g : Option String → Option String)
    (f : TableauField) : (scrubField g f).valid = f.valid := rfl

theorem scrubJoin_valid (h : String → String) (j : TableauJoin) :
    (scrubJoin h j).valid = j.valid := rfl

theorem scrubFilter_valid (h : String → String) (fl : TableauSheetFilter) :
    (scrubFilter h fl).valid = fl.valid := rfl

theorem scrubViz_valid (g : Option String → Option String)
    (h : String → String) (v : TableauSheetVisualization) :
    (scrubViz g h v).valid = v.valid := rfl

theorem scrubSheet_valid (g : Option String → Option String)
    (h : String → String) (s : TableauSheet) :
    (scrubSheet g h s).valid = s.valid := by
  unfold scrubSheet TableauSheet.valid
  cases s.visualization <;>
    simp [List.all_map, Function.comp_def, scrubFilter_valid, scrubViz_valid, Option.map]

theorem scrubDatasource_valid (g : Option String → Option String)
    (h : String → String) (ds : TableauDatasource) :
    (scrubDatasource g h ds).valid = ds.valid := by
  unfold scrubDatasource TableauDatasource.valid
  simp [List.all_map, Function.comp_def, scrubField_valid, scrubJoin_valid]

/-- C1 amended: construction/validation of TableauSemanticModel checks only
the per-field Literal enumerations and never inspects reference ids, so
acceptance is invariant under arbitrary rewriting of every reference id —
models with dangling references are accepted exactly when their enumerated
fields are valid. -/
theorem valid_ignores_reference_ids (g : Option String → Option String)
    (h : String → String) (m : TableauSemanticModel) :
    (m.scrubRefs g h).valid = m.valid := by
  unfold TableauSemanticModel.scrubRefs TableauSemanticModel.valid
  simp [List.all_map, Function.comp_def, scrubDatasource_valid, scrubSheet_valid]

/-- A concrete calculation whose complexity_score is 2, outside [0,1], with
every Literal value in its enumeration. -/
def outOfRangeCalc : TableauCalculation :=
  { id := "c1", name := "ratio", datasource_id := "ds1",
    expression := "SUM([amount]) / SUM([qty])", category := "simple",
    complexity_score := 2 }

/-- C3 counterexample: a TableauCalculation with complexity_score = 2 > 1 is
accepted by construction/validation, refuting the claim that no calculation
with complexity_score outside [0,1] can be constructed. -/
theorem calculation_score_above_one_accepted :
    outOfRangeCalc.valid = true ∧ outOfRangeCalc.complexity_score = 2 ∧
    ¬ outOfRangeCalc.complexity_score ≤ 1 := by
  refine ⟨rfl, rfl, ?_⟩
  show ¬ (2 : Rat) ≤ 1
  norm_num

/-- C3 amended: complexity_score is not constrained by validation — acceptance
of a TableauCalculation is independent of its score, so values outside [0,1]
are constructible; the field merely defaults to 0.0, so a calculation built
without an explicit score (such as a bare column reference before any scoring
pass) has complexity_score exactly 0. -/
theorem calculation_score_unconstrained :
    (∀ (c : TableauCalculation) (q : Rat),
        ({ c with complexity_score := q } : TableauCalculation).valid = c.valid) ∧
    (∀ i n d e : String,
        ({ id := i, name := n, datasource_id := d, expression := e } :
          TableauCalculation).complexity_score = 0) := by
  exact ⟨fun c q => rfl, fun i n d e => rfl⟩

/-- A concrete connection of type "custom_sql" whose raw_sql is absent. -/
def customSqlNoRaw : TableauConnection := { type := "custom_sql" }

/-- C4 counterexample: a TableauConnection with type "custom_sql" and raw_sql
absent is accepted by construction/validation, refuting the claim that such a
construction fails. -/
theorem custom_sql_without_raw_sql_accepted :
    customSqlNoRaw.valid = true ∧ customSqlNoRaw.type = "custom_sql" ∧
    customSqlNoRaw.raw_sql = none := by
  exact ⟨rfl, rfl, rfl⟩

/-- C4 amended: validation of a TableauConnection checks exactly that its
type lies in the declared enumeration; no cross-field invariant ties
"custom_sql" to raw_sql, so a custom_sql connection with any raw_sql value,
absent or empty included, is accepted. -/
theorem connection_valid_iff_type_enumerated :
    (∀ c : TableauConnection,
        c.valid = true ↔ connectionTypes.contains c.type = true) ∧
    (∀ rs : Option String,
        ({ type := "custom_sql", raw_sql := rs } : TableauConnection).valid = true) := by
  exact ⟨fun c => Iff.rfl, fun rs => rfl⟩

/-- C4 amended witness: the amended theorem applied at a concrete connection
and a concrete empty raw_sql. -/
theorem connection_valid_iff_type_enumerated_witness :
    (customSqlNoRaw.valid = true ↔ connectionTypes.contains customSqlNoRaw.type = true) ∧
    ({ type := "custom_sql", raw_sql := some "" } : TableauConnection).valid = true :=
  ⟨connection_valid_iff_type_enumerated.1 customSqlNoRaw,
   connection_valid_iff_type_enumerated.2 (some "")⟩

/-- C8: every classification axis is a closed enumeration — a TableauField
whose role, datatype or source lies outside its declared set is rejected, as
is a TableauCalculation with a category outside its set or a
TableauConnection with a type outside its set; meanwhile "unknown" (the
default of every axis) is always accepted. -/
theorem enumeration_axes_closed :
    (∀ f : TableauField, fieldRoles.contains f.role = false → f.valid = false) ∧
    (∀ f : TableauField, fieldDatatypes.contains f.datatype = false → f.valid = false) ∧
    (∀ f : TableauField, fieldSources.contains f.source = false → f.valid = false) ∧
    (∀ c : TableauCalculation, calcCategories.contains c.category = false → c.valid = false) ∧
    (∀ c : TableauConnection, connectionTypes.contains c.type = false → c.valid = false) ∧
    (∀ i n : String, ({ id := i, name := n } : TableauField).valid = true) ∧
    (∀ i n d e : String,
        ({ id := i, name := n, datasource_id := d, expression := e } :
          TableauCalculation).valid = true) ∧
    (({} : TableauConnection).valid = true) := by
  refine ⟨?_, ?_, ?_, ?_, ?_, fun i n => rfl, fun i n d e => rfl, rfl⟩
  · intro f h; simp at h; simp [TableauField.valid, h]
  · intro f h; simp at h; simp [TableauField.valid, h]
  · intro f h; simp at h; simp [TableauField.valid, h]
  · intro c h; simp at h; simp [TableauCalculation.valid, h]
  · intro c h; simp at h; simp [TableauConnection.valid, h]

/-- C8 witness: the theorem applied at concrete out-of-enumeration values on
each axis, and at the all-unknown defaults. -/
theorem enumeration_axes_closed_witness :
    ({ id := "f", name := "f", role := "weird" } : TableauField).valid = false ∧
    ({ id := "f", name := "f", datatype := "float128" } : TableauField).valid = false ∧
    ({ id := "f", name := "f", source := "sql" } : TableauField).valid = false ∧
    ({ id := "c", name := "c", datasource_id := "d", expression := "e",
       category := "fancy" } : TableauCalculation).valid = false ∧
    ({ type := "webhook" } : TableauConnection).valid = false ∧
    ({ id := "f", name := "f" } : TableauField).valid = true ∧
    ({ id := "c", name := "c", datasource_id := "d", expression := "e" } :
      TableauCalculation).valid = true ∧
    ({} : TableauConnection).valid = true :=
  ⟨enumeration_axes_closed.1 _ (by decide),
   enumeration_axes_closed.2.1 _ (by decide),
   enumeration_axes_closed.2.2.1 _ (by decide),
   enumeration_axes_closed.2.2.2.1 _ (by decide),
   enumeration_axes_closed.2.2.2.2.1 _ (by decide),
   enumeration_axes_closed.2.2.2.2.2.1 "f" "f",
   enumeration_axes_closed.2.2.2.2.2.2.1 "c" "c" "d" "e",
   enumeration_axes_closed.2.2.2.2.2.2.2⟩

/-- Generic check that the first list is an initial segment of the second. -/
def listStartsWith [BEq α] : List α → List α → Bool
  | [], _ => true
  | _ :: _, [] => false
  | p :: ps, b :: bs => p == b && listStartsWith ps bs

/-- Generic contiguous-sublist check. -/
def hasSub [BEq α] (pat : List α) : List α → Bool
  | [] => listStartsWith pat []
  | b :: bs => listStartsWith pat (b :: bs) || hasSub pat bs

/-- Bytes left after skipping up to and through the first occurrence of the
pattern. -/
def dropThroughMarker [BEq α] (pat : List α) : List α → List α
  | [] => []
  | b :: bs =>
      if listStartsWith pat (b :: bs) then (b :: bs).drop pat.length
      else dropThroughMarker pat bs

/-- Bytes up to the first double-quote byte (34). -/
def takeUntilQuote : List Nat → List Nat
  | [] => []
  | b :: bs => if b == 34 then [] else b :: takeUntilQuote bs

/-- Bytes after the first double-quote byte (34). -/
def dropPastQuote : List Nat → List Nat
  | [] => []
  | b :: bs => if b == 34 then bs else dropPastQuote bs

/-- Decoding of a byte list as a string, one character per byte. -/
def bytesToString (bs : List Nat) : String :=
  String.mk (bs.map Char.ofNat)

/-- The ASCII bytes of the workbook-identity node marker. -/
def workbookMarker : List Nat := [60, 119, 111, 114, 107, 98, 111, 111, 107]

/-- Modelled from the spec: the raw spec dictionary produced by the low-level
reader of the adapters module, which is not under src/.  Per §4.1 and §4.6 it
mirrors the document hierarchy; we model the parts the verified claims
inspect: an optional workbook-identity node plus the extracted collections. -/
structure RawSpec where
  workbook_node : Option TableauWorkbook := none
  datasources : List TableauDatasource := []
  calculations : List TableauCalculation := []
  sheets : List TableauSheet := []
  deriving DecidableEq

/-- Modelled from the spec: the Raw Document Reader plus extractors of the
adapters module (not under src/) — a pure transform of document bytes into
the raw spec (§4.1, §5).  The workbook-identity node is present exactly when
its marker occurs in the bytes; its id and name are decoded from the two
quote-delimited segments that follow.  A document with no workbook marker
yields a raw spec whose workbook node is entirely missing. -/
def parse_twb_xml_to_raw_spec (twb_bytes : List Nat) : RawSpec :=
  if hasSub workbookMarker twb_bytes then
    let rest := dropThroughMarker workbookMarker twb_bytes
    { workbook_node :=
        some { id := bytesToString (takeUntilQuote (dropPastQuote rest)),
               name := bytesToString (takeUntilQuote (dropPastQuote (dropPastQuote (dropPastQuote rest)))),
               description := none } }
  else
    { workbook_node := none }

/-- The in-memory value returned by the adapters module to parser_service.py:
structurally a TableauSemanticModel, but with the workbook possibly absent —
the runtime state that the defensive None-check of parser_service.py lines
26-31 guards against.  Pydantic validation of the declared class requires the
workbook, which is what `PreSemanticModel.validate` below captures. -/
structure PreSemanticModel where
  schema_version : String := "1.0"
  workbook : Option TableauWorkbook := none
  datasources : List TableauDatasource := []
  calculations : List TableauCalculation := []
  sheets : List TableauSheet := []
  deriving DecidableEq

/-- Pydantic validation of the declared TableauSemanticModel class applied to
the runtime value: the required, non-optional workbook must be present and
every nested model must pass its Literal checks. -/
def PreSemanticModel.validate (m : PreSemanticModel) : Option TableauSemanticModel :=
  match m.workbook with
  | none => none
  | some wb =>
      let tm : TableauSemanticModel :=
        { schema_version := m.schema_version, workbook := wb,
          datasources := m.datasources, calculations := m.calculations,
          sheets := m.sheets }
      if tm.valid then some tm else none

/-- Modelled from the spec: the mapping of the raw spec into the typed model
(the second adapter call of parser_service.py line 23; adapters module not
under src/).  Per §4.6 it composes the extracted entities into the top-level
model. -/
def raw_spec_to_semantic_model (rs : RawSpec) : PreSemanticModel :=
  { workbook := rs.workbook_node, datasources := rs.datasources,
    calculations := rs.calculations, sheets := rs.sheets }

/-- The safety substitution of parser_service.py lines 25-31: if the workbook
is None, replace it in place with the placeholder TableauWorkbook. -/
def ensureWorkbook (m : PreSemanticModel) : PreSemanticModel :=
  match m.workbook with
  | none =>
      { m with
          workbook := some ({ id := "unknown", name := "Unknown Workbook",
                              description := none } : TableauWorkbook) }
  | some _ => m

/-- The high-level entrypoint parse_twb_to_semantic_model of
src/services/parser_service.py lines 10-33: low-level parse of the bytes,
mapping to the typed model, then the workbook safety substitution. -/
def parse_twb_to_semantic_model (twb_bytes : List Nat) : PreSemanticModel :=
  let raw_spec : RawSpec := parse_twb_xml_to_raw_spec twb_bytes
  let semantic_model : PreSemanticModel := raw_spec_to_semantic_model raw_spec
  ensureWorkbook semantic_model

/-- C2: applying parse_twb_to_semantic_model to a workbook document whose
workbook-identity node is entirely missing yields a model whose workbook is
the placeholder with id "unknown", name "Unknown Workbook" and no
description, and the substitution is the only change made after assembly:
every other component equals the assembled model verbatim. -/
theorem parse_missing_workbook_defaults (b : List Nat)
    (h : (parse_twb_xml_to_raw_spec b).workbook_node = none) :
    (parse_twb_to_semantic_model b).workbook =
      some { id := "unknown", name := "Unknown Workbook", description := none } ∧
    (parse_twb_to_semantic_model b).schema_version =
      (raw_spec_to_semantic_model (parse_twb_xml_to_raw_spec b)).schema_version ∧
    (parse_twb_to_semantic_model b).datasources =
      (raw_spec_to_semantic_model (parse_twb_xml_to_raw_spec b)).datasources ∧
    (parse_twb_to_semantic_model b).calculations =
      (raw_spec_to_semantic_model (parse_twb_xml_to_raw_spec b)).calculations ∧
    (parse_twb_to_semantic_model b).sheets =
      (raw_spec_to_semantic_model (parse_twb_xml_to_raw_spec b)).sheets := by
  unfold parse_twb_to_semantic_model ensureWorkbook raw_spec_to_semantic_model
  simp [h]

/-- C2 witness: the empty document has no workbook-identity marker, and
parsing it produces the placeholder workbook. -/
theorem parse_missing_workbook_defaults_witness :
    (parse_twb_xml_to_raw_spec []).workbook_node = none ∧
    (parse_twb_to_semantic_model []).workbook =
      some { id := "unknown", name := "Unknown Workbook", description := none } :=
  ⟨by decide, (parse_missing_workbook_defaults [] (by decide)).1⟩

/-- C9: parse_twb_to_semantic_model is deterministic — applied twice to
identical byte sequences it yields identical models, field order and
classification outcomes included, since the whole pipeline is a pure
function of the bytes. -/
theorem parse_deterministic (b1 b2 : List Nat) (h : b1 = b2) :
    parse_twb_to_semantic_model b1 = parse_twb_to_semantic_model b2 := by
  rw [h]

/-- C9 witness: the determinism theorem applied at a concrete byte list. -/
theorem parse_deterministic_witness :
    parse_twb_to_semantic_model [60, 97] = parse_twb_to_semantic_model [60, 97] :=
  parse_deterministic [60, 97] [60, 97] rfl

/-- C10: any runtime value that pydantic validation of TableauSemanticModel
accepts has its required workbook present, so the defensive None-check of
parser_service.py lines 26-31 never fires on it: the substitution is the
identity there. -/
theorem workbook_branch_unreachable (pm : PreSemanticModel)
    (tm : TableauSemanticModel) (h : pm.validate = some tm) :
    pm.workbook = some tm.workbook ∧ ensureWorkbook pm = pm := by
  obtain ⟨sv, wbo, dss, cs, shs⟩ := pm
  cases wbo with
  | none => simp [PreSemanticModel.validate] at h
  | some wb =>
      unfold PreSemanticModel.validate at h
      simp only at h
      split at h
      · injection h with h2
        subst h2
        exact ⟨rfl, rfl⟩
      · cases h

/-- A concrete adapter return value whose workbook is present and valid. -/
def validatedPre : PreSemanticModel :=
  { workbook := some { id := "wb1", name := "WB" } }

/-- The model that pydantic validation yields on `validatedPre`. -/
def validatedModel : TableauSemanticModel :=
  { workbook := { id := "wb1", name := "WB" } }

/-- C10 witness: the theorem applied at a concrete validated value. -/
theorem workbook_branch_unreachable_witness :
    validatedPre.workbook = some validatedModel.workbook ∧
    ensureWorkbook validatedPre = validatedPre :=
  workbook_branch_unreachable validatedPre validatedModel (by decide)

/-- Modelled from the spec: the single column-equality heuristic of the Join
Graph Builder (§4.3; adapters module not under src/): a condition counts as a
single column equality when it has exactly one equals sign, no function call
and no boolean connective. -/
def isSingleEquality (cond : String) : Bool :=
  let cs := cond.toList
  cs.count '=' == 1 && !cs.contains '(' &&
    !hasSub " AND ".toList cs && !hasSub " OR ".toList cs

/-- Modelled from the spec: needs_manual_review is set exactly when the
condition is not a single column equality or either endpoint table id does
not resolve to a known table (§4.3). -/
def joinNeedsManualReview (tables : List TableauTable)
    (leftId rightId cond : String) : Bool :=
  !isSingleEquality cond || !tables.any (fun t => t.id == leftId) ||
    !tables.any (fun t => t.id == rightId)

/-- Modelled from the spec: construction of a TableauJoin by the Join Graph
Builder (§4.3): the join type is taken from the explicit join-kind attribute
when present and recognized, otherwise "unknown"; the review flag comes from
the heuristic. -/
def buildJoin (tables : List TableauTable) (jid leftId rightId : String)
    (joinKind : Option String) (cond : String) : TableauJoin :=
  { id := jid, left_table_id := leftId, right_table_id := rightId,
    join_type :=
      match joinKind with
      | some k => if joinTypes.contains k then k else "unknown"
      | none => "unknown",
    condition := cond,
    needs_manual_review := joinNeedsManualReview tables leftId rightId cond }

/-- C7: a TableauJoin constructed without an explicit join_type has join_type
"unknown"; one constructed without an explicit needs_manual_review flag has
needs_manual_review false; and the join built by the Join Graph Builder for a
condition that is a single equality between columns of two existing tables
has needs_manual_review false. -/
theorem join_defaults_and_single_equality_review
    (i l r c : String) (tables : List TableauTable)
    (hs : isSingleEquality c = true)
    (hl : tables.any (fun t => t.id == l) = true)
    (hr : tables.any (fun t => t.id == r) = true) :
    ({ id := i, left_table_id := l, right_table_id := r, condition := c } :
        TableauJoin).join_type = "unknown" ∧
    ({ id := i, left_table_id := l, right_table_id := r, condition := c } :
        TableauJoin).needs_manual_review = false ∧
    (buildJoin tables i l r none c).needs_manual_review = false := by
  refine ⟨rfl, rfl, ?_⟩
  simp [buildJoin, joinNeedsManualReview, hs, hl, hr]

/-- Two concrete tables for the join witness. -/
def exampleTables : List TableauTable :=
  [{ id := "t_orders", name := "orders" }, { id := "t_items", name := "line_items" }]

/-- C7 witness: the theorem applied to the single-equality condition between
the two existing example tables. -/
theorem join_defaults_and_single_equality_review_witness :
    ({ id := "j1", left_table_id := "t_orders", right_table_id := "t_items",
       condition := "[orders.id] = [line_items.order_id]" } :
        TableauJoin).join_type = "unknown" ∧
    ({ id := "j1", left_table_id := "t_orders", right_table_id := "t_items",
       condition := "[orders.id] = [line_items.order_id]" } :
        TableauJoin).needs_manual_review = false ∧
    (buildJoin exampleTables "j1" "t_orders" "t_items" none
        "[orders.id] = [line_items.order_id]").needs_manual_review = false :=
  join_defaults_and_single_equality_review "j1" "t_orders" "t_items"
    "[orders.id] = [line_items.order_id]" exampleTables
    (by decide) (by decide) (by decide)
